import Mathlib

/-!
Shallow embedding of the sui-nft-marketplace event indexer.

Sources embedded here:
- `src/backend/src/services/indexer.service.ts` (poll loop, event classifier,
  per-variant handlers `handleNFTMinted` / `handleNFTListed` /
  `handleNFTPurchased` / `handleNFTDelisted`, `processEvent`);
- the SQLite persistence layer (`src/unnamed/part_000`): `saveNFT`,
  `updateNFTOwner`, `saveListing`, `updateListingStatus`, `saveTransaction`,
  `getListings`;
- the configuration module (`src/unnamed/part_000`, second file) and the
  `SuiService` constructor (`src/backend/src/services/sui.service.ts`).

Modelling conventions:
- SQLite tables become Lean lists of row structures; `INSERT OR REPLACE` on a
  primary key becomes filter-out-then-append; `UPDATE ... WHERE` becomes a map
  over rows; `INSERT OR IGNORE` on the unique `tx_digest` column becomes a
  membership test before append.
- JavaScript `Date.now()` is threaded explicitly as a `now : Nat` argument, so
  every database primitive is a pure state transformer.
- The JavaScript falsy-default idiom `x || d` on strings is `jsStr` (both
  `undefined` and `""` are falsy); `x || null` is `jsOrNull`.
- The outcome of the remote `suiService.getNFTObject` call made by
  `handleNFTMinted` is carried on the event itself as a `FetchOutcome` oracle:
  the handler's behaviour is a pure function of the event plus that outcome.
- Event payload fields (`parsedJson.*`) are `Option String`; reading an absent
  field yields `""` via `getD`.  Events whose payload lacks a field that the
  source binds directly into a SQL statement would throw inside the per-event
  try/catch of `processEvent`; the claims here concern events of the four
  recognized payload shapes, which always carry those fields.
-/

/-- Model of JavaScript `String.prototype.split("::")` on the character list:
scans left to right, cutting at each non-overlapping `"::"` occurrence. -/
def splitSeg : List Char → List Char → List (List Char)
  | [], acc => [acc]
  | ':' :: ':' :: rest, acc => acc :: splitSeg rest []
  | c :: rest, acc => splitSeg rest (acc.concat c)

/-- JavaScript `s.split("::")` as a list of strings. -/
def splitDoubleColon (s : String) : List String :=
  (splitSeg s.toList []).map (fun cs => String.mk cs)

/-- JavaScript `s.split("::").pop()`: the last segment of a `::`-separated
identifier (`split` never returns an empty array, so `pop` is total). -/
def lastSegment (s : String) : String :=
  (splitDoubleColon s).getLastD ""

/-- JavaScript `x || d` for an optionally-present string: `undefined` and the
empty string are falsy and fall through to the default. -/
def jsStr (x : Option String) (d : String) : String :=
  match x with
  | some v => if v = "" then d else v
  | none => d

/-- JavaScript `x || null` for an optionally-present string. -/
def jsOrNull (x : Option String) : Option String :=
  match x with
  | some v => if v = "" then none else some v
  | none => none

/-- Row of the `nfts` table (`id` is the primary key). -/
structure NFTRow where
  id : String
  name : String
  description : String
  image_url : String
  creator : String
  owner : String
  created_at : Nat
  updated_at : Nat
deriving DecidableEq, Repr

/-- Row of the `listings` table (`nft_id` is the primary key). -/
structure ListingRow where
  nft_id : String
  seller : String
  price : String
  status : String
  listed_at : Nat
  updated_at : Nat
deriving DecidableEq, Repr

/-- Row of the `transactions` table (`tx_digest` is UNIQUE; the surrogate
AUTOINCREMENT `id` column is not modelled, no logic reads it). -/
structure TransactionRow where
  tx_digest : String
  event_type : String
  nft_id : Option String
  from_address : Option String
  to_address : Option String
  price : Option String
  timestamp : Nat
deriving DecidableEq, Repr

/-- The persistent store: the three tables the indexer writes. -/
structure DBState where
  nfts : List NFTRow
  listings : List ListingRow
  transactions : List TransactionRow
deriving DecidableEq, Repr

/-- The empty database, as created by `initTables` on first run. -/
def emptyDB : DBState := { nfts := [], listings := [], transactions := [] }

/-- Argument record of `db.saveNFT` (the object literal built by the caller). -/
structure NFTInput where
  id : String
  name : String
  description : String
  image_url : String
  creator : String
  owner : String
  created_at : Nat
deriving DecidableEq, Repr

/-- `db.saveNFT`: `INSERT OR REPLACE INTO nfts` keyed on `id`;
`created_at` defaults to `Date.now()` when falsy (0), `updated_at := Date.now()`. -/
def saveNFT (now : Nat) (n : NFTInput) (s : DBState) : DBState :=
  { s with nfts := s.nfts.filter (fun r => r.id != n.id) ++
      [{ id := n.id, name := n.name, description := n.description,
         image_url := n.image_url, creator := n.creator, owner := n.owner,
         created_at := if n.created_at = 0 then now else n.created_at,
         updated_at := now }] }

/-- `db.updateNFTOwner`: `UPDATE nfts SET owner = ?, updated_at = ? WHERE id = ?`. -/
def updateNFTOwner (now : Nat) (nftId newOwner : String) (s : DBState) : DBState :=
  { s with nfts := s.nfts.map (fun r =>
      if r.id == nftId then { r with owner := newOwner, updated_at := now } else r) }

/-- Argument record of `db.saveListing`. -/
structure ListingInput where
  nft_id : String
  seller : String
  price : String
  status : String
  listed_at : Nat
deriving DecidableEq, Repr

/-- `db.saveListing`: `INSERT OR REPLACE INTO listings` keyed on `nft_id`;
`status` defaults to `'active'` when falsy, `listed_at` to `Date.now()` when falsy. -/
def saveListing (now : Nat) (l : ListingInput) (s : DBState) : DBState :=
  { s with listings := s.listings.filter (fun r => r.nft_id != l.nft_id) ++
      [{ nft_id := l.nft_id, seller := l.seller, price := l.price,
         status := if l.status = "" then "active" else l.status,
         listed_at := if l.listed_at = 0 then now else l.listed_at,
         updated_at := now }] }

/-- `db.updateListingStatus`: `UPDATE listings SET status = ?, updated_at = ? WHERE nft_id = ?`. -/
def updateListingStatus (now : Nat) (nftId status : String) (s : DBState) : DBState :=
  { s with listings := s.listings.map (fun r =>
      if r.nft_id == nftId then { r with status := status, updated_at := now } else r) }

/-- Argument record of `db.saveTransaction`. -/
structure TxInput where
  tx_digest : String
  event_type : String
  nft_id : Option String
  from_address : Option String
  to_address : Option String
  price : Option String
  timestamp : Nat
deriving DecidableEq, Repr

/-- `db.saveTransaction`: `INSERT OR IGNORE INTO transactions` with `tx_digest`
UNIQUE — a row whose digest is already present is silently dropped.  The
optional columns are bound as `x || null` and `timestamp` as `x || Date.now()`. -/
def saveTransaction (now : Nat) (t : TxInput) (s : DBState) : DBState :=
  if s.transactions.any (fun r => r.tx_digest == t.tx_digest) then s
  else
    { s with transactions := s.transactions ++
        [{ tx_digest := t.tx_digest, event_type := t.event_type,
           nft_id := jsOrNull t.nft_id, from_address := jsOrNull t.from_address,
           to_address := jsOrNull t.to_address, price := jsOrNull t.price,
           timestamp := if t.timestamp = 0 then now else t.timestamp }] }

/-- Outcome of the `suiService.getNFTObject(nft_id)` call made while handling a
Minted event: the call throws, or returns an object whose `data?.content` has
no `fields` member, or returns content fields (each field optionally present). -/
inductive FetchOutcome where
  | failure : FetchOutcome
  | noFields : FetchOutcome
  | withFields (name description url : Option String) : FetchOutcome
deriving DecidableEq, Repr

/-- A raw event as returned by `queryEvents`: the full event type identifier,
transaction digest, sender, millisecond timestamp (`parseInt(event.timestampMs)`),
the union of the payload fields of the four recognized event shapes, and the
`FetchOutcome` oracle for the entity-detail fetch. -/
structure RawEvent where
  type_str : String
  txDigest : String
  sender : String
  timestampMs : Nat
  nft_id : Option String
  creator : Option String
  name : Option String
  buyer : Option String
  seller : Option String
  price : Option String
  fetch : FetchOutcome
deriving DecidableEq, Repr

/-- The classifier: `event.type.split('::').pop()`. -/
def eventKind (e : RawEvent) : String := lastSegment e.type_str

/-- `handleNFTMinted`: try the entity-detail fetch; on content with fields,
upsert with fetched metadata (each field falling back through `||`); on content
without fields, write nothing; on a thrown fetch, upsert with the event's
embedded name and empty description/image. -/
def handleNFTMinted (now : Nat) (e : RawEvent) (s : DBState) : DBState :=
  let nid := e.nft_id.getD ""
  let creator := e.creator.getD ""
  let name := e.name.getD ""
  match e.fetch with
  | FetchOutcome.withFields fname fdesc furl =>
      saveNFT now
        { id := nid, name := jsStr fname name, description := jsStr fdesc "",
          image_url := jsStr furl "", creator := creator, owner := creator,
          created_at := e.timestampMs } s
  | FetchOutcome.noFields => s
  | FetchOutcome.failure =>
      saveNFT now
        { id := nid, name := name, description := "", image_url := "",
          creator := creator, owner := creator, created_at := e.timestampMs } s

/-- `handleNFTListed`: upsert the listing with status `'active'` and the event
timestamp (`price.toString()` is the identity on the string payload field). -/
def handleNFTListed (now : Nat) (e : RawEvent) (s : DBState) : DBState :=
  saveListing now
    { nft_id := e.nft_id.getD "", seller := e.seller.getD "",
      price := e.price.getD "", status := "active", listed_at := e.timestampMs } s

/-- `handleNFTPurchased`: set the listing status to `'sold'`, then set the
entity owner to the buyer — two independent single-row updates. -/
def handleNFTPurchased (now : Nat) (e : RawEvent) (s : DBState) : DBState :=
  updateNFTOwner now (e.nft_id.getD "") (e.buyer.getD "")
    (updateListingStatus now (e.nft_id.getD "") "sold" s)

/-- `handleNFTDelisted`: set the listing status to `'delisted'`. -/
def handleNFTDelisted (now : Nat) (e : RawEvent) (s : DBState) : DBState :=
  updateListingStatus now (e.nft_id.getD "") "delisted" s

/-- The transaction record `processEvent` builds after dispatch:
`to_address` is `parsedJson.buyer || parsedJson.seller || null`. -/
def txRecordOf (e : RawEvent) : TxInput :=
  { tx_digest := e.txDigest, event_type := eventKind e,
    nft_id := jsOrNull e.nft_id, from_address := some e.sender,
    to_address :=
      match jsOrNull e.buyer with
      | some b => some b
      | none => jsOrNull e.seller,
    price := jsOrNull e.price, timestamp := e.timestampMs }

/-- `processEvent`: classify on the last type segment, dispatch to the matching
handler (unknown kinds only log), then save the transaction record.  The
surrounding try/catch makes any single event's failure non-fatal to the batch. -/
def processEvent (now : Nat) (e : RawEvent) (s : DBState) : DBState :=
  let kind := eventKind e
  let s1 :=
    if kind = "NFTMinted" then handleNFTMinted now e s
    else if kind = "NFTListed" then handleNFTListed now e s
    else if kind = "NFTPurchased" then handleNFTPurchased now e s
    else if kind = "NFTDelisted" then handleNFTDelisted now e s
    else s
  saveTransaction now (txRecordOf e) s1

/-- Sequential processing of a trace of events, each timestamped with the
wall-clock instant `now` at which it is processed (the `for` loop of
`indexEvents`, possibly spanning several polling cycles). -/
def processAll (tr : List (Nat × RawEvent)) (s : DBState) : DBState :=
  tr.foldl (fun st p => processEvent p.1 p.2 st) s

/-- Owner column of the `nfts` row for a given id, as the query layer reads it. -/
def ownerView (x : String) (s : DBState) : Option String :=
  (s.nfts.find? (fun r => r.id == x)).map (fun r => r.owner)

/-- Joined row shape returned by `db.getListings`:
`l.*, n.name, n.description, n.image_url, n.creator`. -/
structure ListingView where
  listing : ListingRow
  name : String
  description : String
  image_url : String
  creator : String
deriving DecidableEq, Repr

/-- Insertion step for `ORDER BY listed_at DESC` (SQL leaves the relative order
of ties unspecified; any comparison sort refines it). -/
def insertByListedAtDesc (v : ListingView) : List ListingView → List ListingView
  | [] => [v]
  | w :: ws =>
      if w.listing.listed_at ≤ v.listing.listed_at then v :: w :: ws
      else w :: insertByListedAtDesc v ws

/-- `ORDER BY listed_at DESC` over the joined rows. -/
def orderByListedAtDesc (l : List ListingView) : List ListingView :=
  l.foldr insertByListedAtDesc []

/-- `db.getListings`: `SELECT l.*, n.name, n.description, n.image_url, n.creator
FROM listings l JOIN nfts n ON l.nft_id = n.id [WHERE l.status = ?]
ORDER BY l.listed_at DESC`.  The inner join on the `nfts` primary key pairs each
listing with the `nfts` row of its `nft_id`, dropping listings with none. -/
def getListings (s : DBState) (status : Option String) : List ListingView :=
  let joined := s.listings.filterMap (fun l =>
    (s.nfts.find? (fun n => n.id == l.nft_id)).map (fun n =>
      { listing := l, name := n.name, description := n.description,
        image_url := n.image_url, creator := n.creator }))
  let filtered :=
    match status with
    | some st => joined.filter (fun v => v.listing.status == st)
    | none => joined
  orderByListedAtDesc filtered

/-- Configuration module: `PACKAGE_ID = process.env.PACKAGE_ID || ''`. -/
def PACKAGE_ID (env : String → Option String) : String :=
  jsStr (env "PACKAGE_ID") ""

/-- Configuration module: `MARKETPLACE_ID = process.env.MARKETPLACE_ID || ''`. -/
def MARKETPLACE_ID (env : String → Option String) : String :=
  jsStr (env "MARKETPLACE_ID") ""

/-- Configuration module: `SUI_NETWORK = process.env.SUI_NETWORK || 'testnet'`. -/
def SUI_NETWORK (env : String → Option String) : String :=
  jsStr (env "SUI_NETWORK") "testnet"

/-- Configuration module: `SUI_PRIVATE_KEY = process.env.SUI_PRIVATE_KEY || ''`. -/
def SUI_PRIVATE_KEY (env : String → Option String) : String :=
  jsStr (env "SUI_PRIVATE_KEY") ""

/-- The `SuiService` constructor's configuration checking: it assigns
`PACKAGE_ID` and `MARKETPLACE_ID` unconditionally (the `!` assertion is a
compile-time cast, not a runtime check) and throws exactly when
`SUI_PRIVATE_KEY` is falsy.  The subsequent base64 decode and keypair
construction operate on the provided key material through an external
library and are outside this embedding. -/
def suiServiceInit (env : String → Option String) : Except String Unit :=
  if SUI_PRIVATE_KEY env = "" then
    Except.error "SUI_PRIVATE_KEY not found in environment variables"
  else Except.ok ()

/-- Leading-digits accumulator for `parseInt`. -/
def parseDigits : List Char → Nat → Nat
  | [], acc => acc
  | c :: rest, acc =>
      if c.isDigit then parseDigits rest (acc * 10 + (c.toNat - 48)) else acc

/-- JavaScript `parseInt` on a base-10 numeral: parses the longest leading run
of digits; a string not starting with a digit gives NaN, modelled as `none`. -/
def parseIntJS (s : String) : Option Nat :=
  match s.toList with
  | [] => none
  | c :: _ => if c.isDigit then some (parseDigits s.toList 0) else none

/-- The indexer constructor's poll interval:
`parseInt(process.env.INDEXER_POLL_INTERVAL || '5000')` (NaN modelled as 0). -/
def pollIntervalCfg (env : String → Option String) : Nat :=
  (parseIntJS (jsStr (env "INDEXER_POLL_INTERVAL") "5000")).getD 0

/-- What the poll loop does after one cycle: terminate, or sleep a number of
milliseconds and run the next cycle. -/
inductive LoopAction where
  | halt : LoopAction
  | sleepThenContinue (ms : Nat) : LoopAction
deriving DecidableEq, Repr

/-- One iteration of `poll()`: when the running flag is set, `indexEvents` is
awaited inside try/catch, so both a normal and an erroring cycle fall through
to the same `sleep(pollInterval)` before the next iteration; when the flag is
cleared the loop exits. -/
def pollCycle (isRunning : Bool) (interval : Nat) (outcome : Except String Unit) :
    LoopAction :=
  if isRunning then
    match outcome with
    | Except.ok _ => LoopAction.sleepThenContinue interval
    | Except.error _ => LoopAction.sleepThenContinue interval
  else LoopAction.halt

/-! Projection lemmas: each persistence primitive touches one table only. -/

theorem saveNFT_listings (now : Nat) (n : NFTInput) (s : DBState) :
    (saveNFT now n s).listings = s.listings := rfl

theorem saveNFT_transactions (now : Nat) (n : NFTInput) (s : DBState) :
    (saveNFT now n s).transactions = s.transactions := rfl

theorem updateNFTOwner_listings (now : Nat) (a b : String) (s : DBState) :
    (updateNFTOwner now a b s).listings = s.listings := rfl

theorem updateNFTOwner_transactions (now : Nat) (a b : String) (s : DBState) :
    (updateNFTOwner now a b s).transactions = s.transactions := rfl

theorem saveListing_nfts (now : Nat) (l : ListingInput) (s : DBState) :
    (saveListing now l s).nfts = s.nfts := rfl

theorem saveListing_transactions (now : Nat) (l : ListingInput) (s : DBState) :
    (saveListing now l s).transactions = s.transactions := rfl

theorem updateListingStatus_nfts (now : Nat) (a b : String) (s : DBState) :
    (updateListingStatus now a b s).nfts = s.nfts := rfl

theorem updateListingStatus_transactions (now : Nat) (a b : String) (s : DBState) :
    (updateListingStatus now a b s).transactions = s.transactions := rfl

theorem saveTransaction_nfts (now : Nat) (t : TxInput) (s : DBState) :
    (saveTransaction now t s).nfts = s.nfts := by
  unfold saveTransaction; split <;> rfl

theorem saveTransaction_listings (now : Nat) (t : TxInput) (s : DBState) :
    (saveTransaction now t s).listings = s.listings := by
  unfold saveTransaction; split <;> rfl

/-! Dispatch lemmas: `processEvent` as handler-then-transaction, by kind. -/

theorem processEvent_minted (now : Nat) (e : RawEvent) (s : DBState)
    (hk : eventKind e = "NFTMinted") :
    processEvent now e s = saveTransaction now (txRecordOf e) (handleNFTMinted now e s) := by
  unfold processEvent
  rw [hk]
  simp

theorem processEvent_listed (now : Nat) (e : RawEvent) (s : DBState)
    (hk : eventKind e = "NFTListed") :
    processEvent now e s = saveTransaction now (txRecordOf e) (handleNFTListed now e s) := by
  unfold processEvent
  rw [hk]
  simp

theorem processEvent_purchased (now : Nat) (e : RawEvent) (s : DBState)
    (hk : eventKind e = "NFTPurchased") :
    processEvent now e s = saveTransaction now (txRecordOf e) (handleNFTPurchased now e s) := by
  unfold processEvent
  rw [hk]
  simp

theorem processEvent_delisted (now : Nat) (e : RawEvent) (s : DBState)
    (hk : eventKind e = "NFTDelisted") :
    processEvent now e s = saveTransaction now (txRecordOf e) (handleNFTDelisted now e s) := by
  unfold processEvent
  rw [hk]
  simp

theorem processEvent_unknown (now : Nat) (e : RawEvent) (s : DBState)
    (hk : eventKind e ∉ (["NFTMinted", "NFTListed", "NFTPurchased", "NFTDelisted"] : List String)) :
    processEvent now e s = saveTransaction now (txRecordOf e) s := by
  unfold processEvent
  simp only [List.mem_cons, List.mem_singleton, not_or] at hk
  obtain ⟨h1, h2, h3, h4, -⟩ := hk
  simp [h1, h2, h3, h4]

/-! Lemmas about `find?` over the list encodings of keyed tables. -/

theorem nfts_find?_filter_ne (l : List NFTRow) (nid x : String) (hx : x ≠ nid) :
    (l.filter (fun r => r.id != nid)).find? (fun r => r.id == x) =
      l.find? (fun r => r.id == x) := by
  induction l with
  | nil => rfl
  | cons r t ih =>
    by_cases h1 : r.id = nid
    · simp [List.filter_cons, List.find?_cons, h1, Ne.symm hx, ih]
    · by_cases h2 : r.id = x <;>
        simp [List.filter_cons, List.find?_cons, h1, h2, hx, ih]

theorem nfts_find?_filter_self (l : List NFTRow) (nid : String) :
    (l.filter (fun r => r.id != nid)).find? (fun r => r.id == nid) = none := by
  rw [List.find?_eq_none]
  intro a ha
  have h := List.mem_filter.mp ha
  simp only [bne_iff_ne, ne_eq] at h
  simp [h.2]

/-- `ownerView` after `saveNFT`: the saved row's owner at its id, untouched elsewhere. -/
theorem ownerView_saveNFT (now : Nat) (n : NFTInput) (s : DBState) (x : String) :
    ownerView x (saveNFT now n s) = if x = n.id then some n.owner else ownerView x s := by
  unfold ownerView saveNFT
  by_cases hx : x = n.id
  · subst hx
    rw [List.find?_append, nfts_find?_filter_self]
    simp
  · rw [List.find?_append, nfts_find?_filter_ne _ _ _ hx]
    simp only [List.find?_cons, List.find?_nil]
    have e2 : (n.id == x) = false := by simp [Ne.symm hx]
    simp only [e2]
    cases s.nfts.find? (fun r => r.id == x) <;> simp [hx, Option.orElse]

theorem nfts_find?_map_updOwner (now : Nat) (nid b x : String) (l : List NFTRow) :
    ((l.map (fun r => if r.id == nid then { r with owner := b, updated_at := now } else r)).find?
        (fun r => r.id == x)).map (fun r => r.owner) =
      if x = nid then
        ((l.find? (fun r => r.id == x)).map (fun r => r.owner)).map (fun _ => b)
      else (l.find? (fun r => r.id == x)).map (fun r => r.owner) := by
  induction l with
  | nil => by_cases hx : x = nid <;> simp [hx]
  | cons r t ih =>
    simp only [List.map_cons]
    by_cases h1 : r.id = nid <;> by_cases h2 : r.id = x
    · have hx : x = nid := by rw [← h2, h1]
      have hupd : (if (r.id == nid) = true then
          ({ r with owner := b, updated_at := now } : NFTRow) else r) =
          { r with owner := b, updated_at := now } := by simp [h1]
      rw [hupd, List.find?_cons_of_pos _ (by simp [h2]),
        List.find?_cons_of_pos _ (by simp [h2])]
      simp [hx]
    · have hx : x ≠ nid := fun h => h2 (h1.trans h.symm)
      have hupd : (if (r.id == nid) = true then
          ({ r with owner := b, updated_at := now } : NFTRow) else r) =
          { r with owner := b, updated_at := now } := by simp [h1]
      rw [hupd, List.find?_cons_of_neg _ (by simp [h2]),
        List.find?_cons_of_neg _ (by simp [h2]), ih, if_neg hx]
    · have hx : x ≠ nid := fun h => h1 (h2.trans h)
      have hkeep : (if (r.id == nid) = true then
          ({ r with owner := b, updated_at := now } : NFTRow) else r) = r := by simp [h1]
      rw [hkeep, List.find?_cons_of_pos _ (by simp [h2]),
        List.find?_cons_of_pos _ (by simp [h2]), if_neg hx]
    · have hkeep : (if (r.id == nid) = true then
          ({ r with owner := b, updated_at := now } : NFTRow) else r) = r := by simp [h1]
      rw [hkeep, List.find?_cons_of_neg _ (by simp [h2]),
        List.find?_cons_of_neg _ (by simp [h2]), ih]

/-- `ownerView` after `updateNFTOwner`: overwritten at the targeted id when a
row exists, untouched otherwise. -/
theorem ownerView_updateNFTOwner (now : Nat) (nid b : String) (s : DBState) (x : String) :
    ownerView x (updateNFTOwner now nid b s) =
      if x = nid then (ownerView x s).map (fun _ => b) else ownerView x s := by
  unfold ownerView updateNFTOwner
  exact nfts_find?_map_updOwner now nid b x s.nfts

theorem ownerView_saveListing (now : Nat) (l : ListingInput) (s : DBState) (x : String) :
    ownerView x (saveListing now l s) = ownerView x s := rfl

theorem ownerView_updateListingStatus (now : Nat) (a b : String) (s : DBState) (x : String) :
    ownerView x (updateListingStatus now a b s) = ownerView x s := rfl

theorem ownerView_saveTransaction (now : Nat) (t : TxInput) (s : DBState) (x : String) :
    ownerView x (saveTransaction now t s) = ownerView x s := by
  unfold ownerView
  rw [saveTransaction_nfts]

/-- Spec-side owner automaton (stated from the specification's words, to be
compared with the code's behaviour): a row-writing Minted event sets the owner
to the creator, a Purchased event overwrites it with the buyer when a row
exists, every other event leaves it unchanged. -/
def ownerAfter (x : String) (acc : Option String) (e : RawEvent) : Option String :=
  if eventKind e = "NFTMinted" then
    if x = e.nft_id.getD "" then
      match e.fetch with
      | FetchOutcome.noFields => acc
      | _ => some (e.creator.getD "")
    else acc
  else if eventKind e = "NFTPurchased" then
    if x = e.nft_id.getD "" then acc.map (fun _ => e.buyer.getD "") else acc
  else acc

/-- Spec-side owner over a whole trace, starting from no row. -/
def ownerSpec (x : String) (tr : List RawEvent) : Option String :=
  tr.foldl (ownerAfter x) none

/-- One `processEvent` step refines the spec-side owner automaton. -/
theorem ownerView_processEvent (now : Nat) (e : RawEvent) (s : DBState) (x : String) :
    ownerView x (processEvent now e s) = ownerAfter x (ownerView x s) e := by
  by_cases h1 : eventKind e = "NFTMinted"
  · rw [processEvent_minted now e s h1, ownerView_saveTransaction]
    unfold handleNFTMinted
    cases hf : e.fetch with
    | failure =>
        rw [ownerView_saveNFT]
        unfold ownerAfter
        simp [h1, hf]
    | noFields =>
        unfold ownerAfter
        simp [h1, hf]
    | withFields fn fd fu =>
        rw [ownerView_saveNFT]
        unfold ownerAfter
        simp [h1, hf]
  · by_cases h2 : eventKind e = "NFTListed"
    · rw [processEvent_listed now e s h2, ownerView_saveTransaction]
      unfold handleNFTListed ownerAfter
      rw [ownerView_saveListing, h2]
      simp
    · by_cases h3 : eventKind e = "NFTPurchased"
      · rw [processEvent_purchased now e s h3, ownerView_saveTransaction]
        unfold handleNFTPurchased ownerAfter
        rw [ownerView_updateNFTOwner, ownerView_updateListingStatus, h3]
        simp
      · by_cases h4 : eventKind e = "NFTDelisted"
        · rw [processEvent_delisted now e s h4, ownerView_saveTransaction]
          unfold handleNFTDelisted ownerAfter
          rw [ownerView_updateListingStatus]
          simp [h1, h3]
        · rw [processEvent_unknown now e s (by simp [h1, h2, h3, h4]),
            ownerView_saveTransaction]
          unfold ownerAfter
          simp [h1, h3]

/-- `processAll` refines the spec-side owner automaton from any start state. -/
theorem processAll_ownerView (tr : List (Nat × RawEvent)) (s : DBState) (x : String) :
    ownerView x (processAll tr s) = (tr.map Prod.snd).foldl (ownerAfter x) (ownerView x s) := by
  induction tr generalizing s with
  | nil => rfl
  | cons p t ih =>
    show ownerView x (processAll t (processEvent p.1 p.2 s)) = _
    rw [ih, List.map_cons, List.foldl_cons, ownerView_processEvent]

/-- Buyer of the most recent Purchased event for a given id in a trace (the
reading of the original claim under which it fails on the code). -/
def lastPurchaseBuyer (x : String) (tr : List RawEvent) : Option String :=
  tr.foldl (fun acc e =>
    if eventKind e = "NFTPurchased" ∧ e.nft_id.getD "" = x then
      some (e.buyer.getD "")
    else acc) none

/-! Concrete fixtures used by counterexamples and witnesses. -/

/-- A Minted event for entity X whose detail fetch throws (fallback write path). -/
def evMint : RawEvent :=
  { type_str := "0xp::marketplace::NFTMinted", txDigest := "tx-mint", sender := "0xC",
    timestampMs := 1000, nft_id := some "X", creator := some "0xC", name := some "N",
    buyer := none, seller := none, price := none, fetch := FetchOutcome.failure }

/-- A Minted event for entity Y whose detail fetch succeeds but whose returned
object has no content fields. -/
def evMintY : RawEvent :=
  { type_str := "0xp::marketplace::NFTMinted", txDigest := "tx-mint-y", sender := "0xC",
    timestampMs := 1500, nft_id := some "Y", creator := some "0xC", name := some "NY",
    buyer := none, seller := none, price := none, fetch := FetchOutcome.noFields }

/-- A Listed event for entity X at price 100. -/
def evList : RawEvent :=
  { type_str := "0xp::marketplace::NFTListed", txDigest := "tx-list", sender := "0xC",
    timestampMs := 2000, nft_id := some "X", creator := none, name := none,
    buyer := none, seller := some "0xC", price := some "100",
    fetch := FetchOutcome.noFields }

/-- A Purchased event for entity X by buyer 0xB. -/
def evBuy : RawEvent :=
  { type_str := "0xp::marketplace::NFTPurchased", txDigest := "tx-buy", sender := "0xB",
    timestampMs := 3000, nft_id := some "X", creator := none, name := none,
    buyer := some "0xB", seller := some "0xC", price := some "100",
    fetch := FetchOutcome.noFields }

/-- An event whose kind string is not one of the four recognized kinds. -/
def evUnknown : RawEvent :=
  { type_str := "0xp::marketplace::SomethingElse", txDigest := "tx-unk", sender := "0xS",
    timestampMs := 4000, nft_id := none, creator := none, name := none,
    buyer := none, seller := none, price := none, fetch := FetchOutcome.noFields }

/-- C2 — corrected.  Counterexample to the original claim: re-delivering the
Minted event for X after the Purchased event (at-least-once delivery, which the
claim explicitly includes) resets the owner to the creator 0xC, while the most
recent Purchased event for X has buyer 0xB. -/
theorem C2_counterexample :
    ownerView "X" (processAll [(1, evMint), (2, evBuy), (3, evMint)] emptyDB) = some "0xC" ∧
    lastPurchaseBuyer "X" [evMint, evBuy, evMint] = some "0xB" ∧
    ("0xC" : String) ≠ "0xB" := by decide

/-- C2 — amended claim, proved: in every state reachable from the empty
database, each entity's owner column equals the value of the spec-side owner
automaton `ownerSpec`: the creator of the most recent row-writing Minted event
for that id, overwritten by the buyer of each later Purchased event; a
re-delivered Minted event resets the owner to the creator, and a Purchased
event processed while no row exists does not set an owner. -/
theorem C2_owner_tracks_events (tr : List (Nat × RawEvent)) (x : String) :
    ownerView x (processAll tr emptyDB) = ownerSpec x (tr.map Prod.snd) := by
  rw [processAll_ownerView]
  rfl

/-- C6 — confirmed.  In-order batch Minted, Listed, Purchased yields owner 0xB
and listing status sold; with Purchased processed before Listed the purchase's
listing update affects zero rows (the listings table is still empty right after
it) yet the owner is still 0xB, and the late Listed write leaves the listing
active — the two writes of a purchase are independent. -/
theorem C6_order_sensitivity :
    ownerView "X" (processAll [(10, evMint), (11, evList), (12, evBuy)] emptyDB) = some "0xB" ∧
    ((processAll [(10, evMint), (11, evList), (12, evBuy)] emptyDB).listings.find?
        (fun r => r.nft_id == "X")).map (fun r => r.status) = some "sold" ∧
    (processAll [(10, evMint), (11, evBuy)] emptyDB).listings = [] ∧
    ownerView "X" (processAll [(10, evMint), (11, evBuy), (12, evList)] emptyDB) = some "0xB" ∧
    ((processAll [(10, evMint), (11, evBuy), (12, evList)] emptyDB).listings.find?
        (fun r => r.nft_id == "X")).map (fun r => r.status) = some "active" := by
  decide

/-- Transaction-table shape of one `saveTransaction` call. -/
theorem saveTransaction_transactions (now : Nat) (t : TxInput) (s : DBState) :
    (saveTransaction now t s).transactions =
      if s.transactions.any (fun r => r.tx_digest == t.tx_digest) then s.transactions
      else s.transactions ++
        [{ tx_digest := t.tx_digest, event_type := t.event_type,
           nft_id := jsOrNull t.nft_id, from_address := jsOrNull t.from_address,
           to_address := jsOrNull t.to_address, price := jsOrNull t.price,
           timestamp := if t.timestamp = 0 then now else t.timestamp }] := by
  unfold saveTransaction
  split <;> simp_all

theorem handleNFTMinted_transactions (now : Nat) (e : RawEvent) (s : DBState) :
    (handleNFTMinted now e s).transactions = s.transactions := by
  unfold handleNFTMinted
  cases e.fetch <;> rfl

theorem handleNFTListed_transactions (now : Nat) (e : RawEvent) (s : DBState) :
    (handleNFTListed now e s).transactions = s.transactions := rfl

theorem handleNFTPurchased_transactions (now : Nat) (e : RawEvent) (s : DBState) :
    (handleNFTPurchased now e s).transactions = s.transactions := rfl

theorem handleNFTDelisted_transactions (now : Nat) (e : RawEvent) (s : DBState) :
    (handleNFTDelisted now e s).transactions = s.transactions := rfl

/-- Whatever the kind, `processEvent` changes the transaction table exactly as
`saveTransaction` of the event's record does. -/
theorem processEvent_transactions (now : Nat) (e : RawEvent) (s : DBState) :
    (processEvent now e s).transactions =
      (saveTransaction now (txRecordOf e) s).transactions := by
  by_cases h1 : eventKind e = "NFTMinted"
  · rw [processEvent_minted now e s h1, saveTransaction_transactions,
      saveTransaction_transactions, handleNFTMinted_transactions]
  · by_cases h2 : eventKind e = "NFTListed"
    · rw [processEvent_listed now e s h2, saveTransaction_transactions,
        saveTransaction_transactions, handleNFTListed_transactions]
    · by_cases h3 : eventKind e = "NFTPurchased"
      · rw [processEvent_purchased now e s h3, saveTransaction_transactions,
          saveTransaction_transactions, handleNFTPurchased_transactions]
      · by_cases h4 : eventKind e = "NFTDelisted"
        · rw [processEvent_delisted now e s h4, saveTransaction_transactions,
            saveTransaction_transactions, handleNFTDelisted_transactions]
        · rw [processEvent_unknown now e s (by simp [h1, h2, h3, h4])]

/-- C1 — corrected.  Counterexample to the original claim: the batch of one
Minted event and one unrecognized-kind event yields one Entity row but two
Transaction rows, because `processEvent` saves the transaction record after the
dispatch switch for every event, the unknown kind included. -/
theorem C1_counterexample :
    (processAll [(1, evMint), (2, evUnknown)] emptyDB).nfts.length = 1 ∧
    (processAll [(1, evMint), (2, evUnknown)] emptyDB).transactions.length ≠ 1 := by
  decide

/-- C1 — amended claim, proved: an event of unrecognized kind performs no
entity or listing mutation, but it does append one Transaction record (with the
unknown kind string) when its digest is fresh; the Minted-plus-unknown batch
yields exactly one Entity row and exactly two Transaction rows. -/
theorem C1_unknown_kind_behavior (now : Nat) (e : RawEvent) (s : DBState)
    (hk : eventKind e ∉ (["NFTMinted", "NFTListed", "NFTPurchased", "NFTDelisted"] : List String)) :
    (processEvent now e s).nfts = s.nfts ∧
    (processEvent now e s).listings = s.listings ∧
    (s.transactions.any (fun r => r.tx_digest == e.txDigest) = false →
      (processEvent now e s).transactions.length = s.transactions.length + 1) ∧
    (processAll [(1, evMint), (2, evUnknown)] emptyDB).nfts.length = 1 ∧
    (processAll [(1, evMint), (2, evUnknown)] emptyDB).transactions.length = 2 := by
  rw [processEvent_unknown now e s hk]
  refine ⟨saveTransaction_nfts now _ s, saveTransaction_listings now _ s, ?_, by decide, by decide⟩
  intro hfresh
  rw [saveTransaction_transactions]
  have : ((txRecordOf e).tx_digest) = e.txDigest := rfl
  rw [this, if_neg (by simp [hfresh])]
  simp

/-- C1 witness: the concrete unknown-kind event satisfies the hypothesis and
leaves the entity table untouched. -/
theorem C1_unknown_kind_behavior_w :
    eventKind evUnknown ∉ (["NFTMinted", "NFTListed", "NFTPurchased", "NFTDelisted"] : List String) ∧
    (processEvent 7 evUnknown emptyDB).nfts = emptyDB.nfts :=
  ⟨by decide, (C1_unknown_kind_behavior 7 evUnknown emptyDB (by decide)).1⟩

/-- The row `saveNFT` leaves at its key. -/
theorem saveNFT_find_self (now : Nat) (n : NFTInput) (s : DBState) :
    (saveNFT now n s).nfts.find? (fun r => r.id == n.id) =
      some { id := n.id, name := n.name, description := n.description,
             image_url := n.image_url, creator := n.creator, owner := n.owner,
             created_at := if n.created_at = 0 then now else n.created_at,
             updated_at := now } := by
  unfold saveNFT
  rw [List.find?_append, nfts_find?_filter_self]
  simp

/-- C3 — corrected.  Counterexample to the original claim: for a Minted event
whose detail fetch succeeds but returns an object without content fields, no
Entity row is written at all — the mint is dropped, refuting the dichotomy
"full row on success, fallback row on failure, never dropped". -/
theorem C3_counterexample :
    eventKind evMintY = "NFTMinted" ∧
    evMintY.fetch = FetchOutcome.noFields ∧
    (processEvent 9 evMintY emptyDB).nfts = [] := by
  decide

/-- C3 — amended claim, proved: for a Minted event carrying id, creator and
name, a detail fetch that returns content fields writes the Entity row with the
fetched metadata (each field falling back through the JavaScript or-idiom) and
owner = creator, and a detail fetch that throws writes the fallback row with
the event's name and empty description/image, without propagating the failure;
a fetch that succeeds without content fields writes no row (see the drop case). -/
theorem C3_minted_row_written (now : Nat) (e : RawEvent) (s : DBState) (nid cr nm : String)
    (hid : e.nft_id = some nid) (hcr : e.creator = some cr) (hnm : e.name = some nm)
    (hk : eventKind e = "NFTMinted") :
    (e.fetch = FetchOutcome.failure →
      (processEvent now e s).nfts.find? (fun r => r.id == nid) =
        some { id := nid, name := nm, description := "", image_url := "",
               creator := cr, owner := cr,
               created_at := if e.timestampMs = 0 then now else e.timestampMs,
               updated_at := now }) ∧
    (∀ fn fd fu, e.fetch = FetchOutcome.withFields fn fd fu →
      (processEvent now e s).nfts.find? (fun r => r.id == nid) =
        some { id := nid, name := jsStr fn nm, description := jsStr fd "",
               image_url := jsStr fu "", creator := cr, owner := cr,
               created_at := if e.timestampMs = 0 then now else e.timestampMs,
               updated_at := now }) := by
  constructor
  · intro hf
    rw [processEvent_minted now e s hk]
    rw [saveTransaction_nfts]
    unfold handleNFTMinted
    rw [hf, hid, hcr, hnm]
    simpa using saveNFT_find_self now
      { id := nid, name := nm, description := "", image_url := "",
        creator := cr, owner := cr, created_at := e.timestampMs } s
  · intro fn fd fu hf
    rw [processEvent_minted now e s hk]
    rw [saveTransaction_nfts]
    unfold handleNFTMinted
    rw [hf, hid, hcr, hnm]
    simpa using saveNFT_find_self now
      { id := nid, name := jsStr fn nm, description := jsStr fd "",
        image_url := jsStr fu "", creator := cr, owner := cr,
        created_at := e.timestampMs } s

/-- C3 witness: the concrete fetch-throwing Minted event produces the fallback
row with the event's name and empty description/image. -/
theorem C3_minted_row_written_w :
    evMint.fetch = FetchOutcome.failure ∧
    (processEvent 3 evMint emptyDB).nfts.find? (fun r => r.id == "X") =
      some { id := "X", name := "N", description := "", image_url := "",
             creator := "0xC", owner := "0xC", created_at := 1000, updated_at := 3 } :=
  ⟨rfl, (C3_minted_row_written 3 evMint emptyDB "X" "0xC" "N" rfl rfl rfl (by decide)).1 rfl⟩

/-- C9 — confirmed: a Minted event whose detail fetch succeeds without content
fields writes no Entity row and no Listing row, raises no error, and (for a
fresh digest) appends exactly the Transaction record. -/
theorem C9_mint_dropped_without_fields (now : Nat) (e : RawEvent) (s : DBState)
    (hk : eventKind e = "NFTMinted") (hf : e.fetch = FetchOutcome.noFields) :
    (processEvent now e s).nfts = s.nfts ∧
    (processEvent now e s).listings = s.listings ∧
    (s.transactions.any (fun r => r.tx_digest == e.txDigest) = false →
      (processEvent now e s).transactions.length = s.transactions.length + 1) := by
  rw [processEvent_minted now e s hk]
  unfold handleNFTMinted
  rw [hf]
  refine ⟨saveTransaction_nfts now _ s, saveTransaction_listings now _ s, ?_⟩
  intro hfresh
  rw [saveTransaction_transactions]
  have hd : ((txRecordOf e).tx_digest) = e.txDigest := rfl
  rw [hd, if_neg (by simp [hfresh])]
  simp

/-- C9 witness: the concrete no-content-fields Minted event leaves the entity
table empty and appends one transaction row. -/
theorem C9_mint_dropped_without_fields_w :
    evMintY.fetch = FetchOutcome.noFields ∧
    (processEvent 9 evMintY emptyDB).nfts = emptyDB.nfts ∧
    (processEvent 9 evMintY emptyDB).transactions.length = 1 := by
  have h := C9_mint_dropped_without_fields 9 evMintY emptyDB (by decide) rfl
  exact ⟨rfl, h.1, h.2.2 (by decide)⟩

/-- Two states are equal when all three tables agree. -/
theorem dbstate_eq (a b : DBState) (h1 : a.nfts = b.nfts) (h2 : a.listings = b.listings)
    (h3 : a.transactions = b.transactions) : a = b := by
  cases a
  cases b
  simp_all

theorem handleNFTPurchased_nfts (now : Nat) (e : RawEvent) (s : DBState) :
    (handleNFTPurchased now e s).nfts = s.nfts.map (fun r =>
      if r.id == e.nft_id.getD "" then
        { r with owner := e.buyer.getD "", updated_at := now } else r) := rfl

theorem handleNFTPurchased_listings (now : Nat) (e : RawEvent) (s : DBState) :
    (handleNFTPurchased now e s).listings = s.listings.map (fun r =>
      if r.nft_id == e.nft_id.getD "" then
        { r with status := "sold", updated_at := now } else r) := rfl

/-- Re-applying the owner overwrite at a later instant equals applying it once
at that instant. -/
theorem updOwner_overwrite (n1 n2 : Nat) (nid b : String) (l : List NFTRow) :
    (l.map (fun r => if r.id == nid then { r with owner := b, updated_at := n1 } else r)).map
        (fun r => if r.id == nid then { r with owner := b, updated_at := n2 } else r) =
      l.map (fun r => if r.id == nid then { r with owner := b, updated_at := n2 } else r) := by
  rw [List.map_map]
  apply List.map_congr_left
  intro r _
  by_cases h : r.id = nid <;> simp [h]

/-- Re-applying the status overwrite at a later instant equals applying it once
at that instant. -/
theorem updStatus_overwrite (n1 n2 : Nat) (nid st : String) (l : List ListingRow) :
    (l.map (fun r => if r.nft_id == nid then { r with status := st, updated_at := n1 } else r)).map
        (fun r => if r.nft_id == nid then { r with status := st, updated_at := n2 } else r) =
      l.map (fun r => if r.nft_id == nid then { r with status := st, updated_at := n2 } else r) := by
  rw [List.map_map]
  apply List.map_congr_left
  intro r _
  by_cases h : r.nft_id = nid <;> simp [h]

/-- A Purchased event listed at timestamp 0, processed twice at instants 1 and
2 over a store holding an active listing for its id. -/
def evBuyTs0 : RawEvent :=
  { type_str := "0xp::marketplace::NFTPurchased", txDigest := "tx-buy0", sender := "0xB",
    timestampMs := 0, nft_id := some "X", creator := none, name := none,
    buyer := some "0xB", seller := some "0xC", price := some "100",
    fetch := FetchOutcome.noFields }

/-- A store already holding an active listing for X. -/
def dbWithListing : DBState :=
  { nfts := [], transactions := [],
    listings := [{ nft_id := "X", seller := "0xC", price := "100", status := "active",
                   listed_at := 500, updated_at := 500 }] }

/-- C5 — corrected.  Counterexample to the original claim: for a Purchased
event whose parsed timestamp is 0, `saveTransaction` substitutes the wall-clock
instant for the falsy timestamp, so the double application at instants 1 then 2
matches neither the single application at instant 1 (listing `updated_at`
differs) nor at instant 2 (transaction timestamp differs). -/
theorem C5_counterexample :
    eventKind evBuyTs0 = "NFTPurchased" ∧
    processEvent 2 evBuyTs0 (processEvent 1 evBuyTs0 dbWithListing) ≠
      processEvent 1 evBuyTs0 dbWithListing ∧
    processEvent 2 evBuyTs0 (processEvent 1 evBuyTs0 dbWithListing) ≠
      processEvent 2 evBuyTs0 dbWithListing := by
  decide

/-- C5 — amended claim, proved: for every Purchased event with a nonzero parsed
timestamp (every real ledger event), applying it at instant `n1` and again at
instant `n2` yields exactly the state of applying it once at `n2`: the
transaction insert is deduplicated by digest, and listing status and entity
owner are overwritten to the same values, not accumulated. -/
theorem C5_purchase_idempotent (e : RawEvent) (s : DBState) (n1 n2 : Nat)
    (hk : eventKind e = "NFTPurchased") (ht : e.timestampMs ≠ 0) :
    processEvent n2 e (processEvent n1 e s) = processEvent n2 e s := by
  rw [processEvent_purchased n1 e s hk, processEvent_purchased n2 e s hk,
    processEvent_purchased n2 e _ hk]
  apply dbstate_eq
  · rw [saveTransaction_nfts, saveTransaction_nfts, handleNFTPurchased_nfts,
      saveTransaction_nfts, handleNFTPurchased_nfts, handleNFTPurchased_nfts,
      updOwner_overwrite]
  · rw [saveTransaction_listings, saveTransaction_listings, handleNFTPurchased_listings,
      saveTransaction_listings, handleNFTPurchased_listings, handleNFTPurchased_listings,
      updStatus_overwrite]
  · rw [saveTransaction_transactions, saveTransaction_transactions,
      handleNFTPurchased_transactions, saveTransaction_transactions,
      handleNFTPurchased_transactions, handleNFTPurchased_transactions]
    have hd : ((txRecordOf e).tx_digest) = e.txDigest := rfl
    rw [hd]
    have hts : ((txRecordOf e).timestamp) = e.timestampMs := rfl
    rw [hts]
    by_cases hc : s.transactions.any (fun r => r.tx_digest == e.txDigest) = true
    · rw [if_pos hc, if_pos hc]
    · rw [if_neg hc, if_neg hc]
      simp [List.any_append, ht]

/-- C5 witness: the concrete Purchased event over a store with an active
listing, delivered at instants 1 and then 2. -/
theorem C5_purchase_idempotent_w :
    eventKind evBuy = "NFTPurchased" ∧ evBuy.timestampMs ≠ 0 ∧
    processEvent 2 evBuy (processEvent 1 evBuy dbWithListing) =
      processEvent 2 evBuy dbWithListing :=
  ⟨by decide, by decide, C5_purchase_idempotent evBuy dbWithListing 1 2 (by decide) (by decide)⟩

/-- The row a fresh `saveTransaction` appends. -/
def savedTxRow (now : Nat) (t : TxInput) : TransactionRow :=
  { tx_digest := t.tx_digest, event_type := t.event_type,
    nft_id := jsOrNull t.nft_id, from_address := jsOrNull t.from_address,
    to_address := jsOrNull t.to_address, price := jsOrNull t.price,
    timestamp := if t.timestamp = 0 then now else t.timestamp }

theorem saveTransaction_transactions_fresh (now : Nat) (t : TxInput) (s : DBState)
    (h : s.transactions.any (fun r => r.tx_digest == t.tx_digest) = false) :
    (saveTransaction now t s).transactions = s.transactions ++ [savedTxRow now t] := by
  rw [saveTransaction_transactions, if_neg (by simp [h])]
  rfl

/-- C7 — confirmed: delivering an event whose digest is not yet recorded twice,
in two separate cycles, leaves exactly one Transaction row with that digest —
the second insert is silently suppressed by the UNIQUE key, never an error. -/
theorem C7_duplicate_delivery_single_row (e : RawEvent) (s : DBState) (n1 n2 : Nat)
    (h0 : s.transactions.countP (fun r => r.tx_digest == e.txDigest) = 0) :
    (processEvent n2 e (processEvent n1 e s)).transactions.countP
      (fun r => r.tx_digest == e.txDigest) = 1 := by
  have hany : s.transactions.any (fun r => r.tx_digest == e.txDigest) = false := by
    rw [List.any_eq_false]
    intro a ha
    simpa using List.countP_eq_zero.mp h0 a ha
  have h1 : (processEvent n1 e s).transactions =
      s.transactions ++ [savedTxRow n1 (txRecordOf e)] := by
    rw [processEvent_transactions]
    exact saveTransaction_transactions_fresh n1 (txRecordOf e) s hany
  have hdig : (savedTxRow n1 (txRecordOf e)).tx_digest = e.txDigest := rfl
  have hany2 : ((processEvent n1 e s).transactions.any
      (fun r => r.tx_digest == (txRecordOf e).tx_digest)) = true := by
    rw [h1]
    simp only [List.any_append, List.any_cons, List.any_nil, Bool.or_false,
      Bool.or_eq_true, beq_iff_eq]
    exact Or.inr rfl
  have h2 : (processEvent n2 e (processEvent n1 e s)).transactions =
      (processEvent n1 e s).transactions := by
    rw [processEvent_transactions, saveTransaction_transactions, if_pos hany2]
  rw [h2, h1, List.countP_append, h0]
  simp [List.countP_cons, hdig]

/-- C7 witness: the concrete Purchased event delivered in two cycles over the
empty store. -/
theorem C7_duplicate_delivery_single_row_w :
    emptyDB.transactions.countP (fun r => r.tx_digest == evBuy.txDigest) = 0 ∧
    (processEvent 6 evBuy (processEvent 5 evBuy emptyDB)).transactions.countP
      (fun r => r.tx_digest == evBuy.txDigest) = 1 :=
  ⟨by decide, C7_duplicate_delivery_single_row evBuy emptyDB 5 6 (by decide)⟩

/-- Environment carrying only the private key: both contract identifiers and
the network variable are absent. -/
def envOnlyKey : String → Option String :=
  fun k => if k == "SUI_PRIVATE_KEY" then some "suiprivkeyAAAA" else none

/-- C4 — corrected.  Counterexample to the original claim: with the package and
marketplace identifiers missing from the environment, initialization does not
fail fast — the constructor check passes (only the private key is checked) and
both identifiers silently default to the empty string. -/
theorem C4_counterexample :
    envOnlyKey "PACKAGE_ID" = none ∧ envOnlyKey "MARKETPLACE_ID" = none ∧
    suiServiceInit envOnlyKey = Except.ok () ∧
    PACKAGE_ID envOnlyKey = "" ∧ MARKETPLACE_ID envOnlyKey = "" :=
  ⟨rfl, rfl, rfl, rfl, rfl⟩

/-- C4 — amended claim, proved: the startup configuration check throws exactly
when `SUI_PRIVATE_KEY` is missing or empty; missing package and marketplace
identifiers (and network) silently default and never prevent initialization. -/
theorem C4_fatal_iff_missing_key (env : String → Option String) :
    (suiServiceInit env =
        Except.error "SUI_PRIVATE_KEY not found in environment variables") ↔
      SUI_PRIVATE_KEY env = "" := by
  unfold suiServiceInit
  by_cases h : SUI_PRIVATE_KEY env = "" <;> simp [h]

/-- Environment with every variable absent. -/
def envEmpty : String → Option String := fun _ => none

/-- C8 — confirmed: while the running flag is set, a cycle — whether its
`indexEvents` resolved or raised — always continues with a sleep of the
configured interval, which defaults to 5000 ms when the environment variable
is absent. -/
theorem C8_cycle_always_continues (env : String → Option String)
    (outcome : Except String Unit) :
    pollCycle true (pollIntervalCfg env) outcome =
      LoopAction.sleepThenContinue (pollIntervalCfg env) ∧
    (env "INDEXER_POLL_INTERVAL" = none → pollIntervalCfg env = 5000) := by
  constructor
  · cases outcome <;> rfl
  · intro h
    unfold pollIntervalCfg
    rw [h]
    decide

/-- C8 witness: the empty environment with an erroring cycle still sleeps the
default 5000 ms and continues. -/
theorem C8_cycle_always_continues_w :
    pollCycle true (pollIntervalCfg envEmpty) (Except.error "boom") =
      LoopAction.sleepThenContinue 5000 ∧
    pollIntervalCfg envEmpty = 5000 := by
  have h := C8_cycle_always_continues envEmpty (Except.error "boom")
  have h2 := h.2 rfl
  exact ⟨h2 ▸ h.1, h2⟩

theorem mem_insertByListedAtDesc (v w : ListingView) (l : List ListingView) :
    v ∈ insertByListedAtDesc w l ↔ v = w ∨ v ∈ l := by
  induction l with
  | nil => simp [insertByListedAtDesc]
  | cons a t ih =>
    unfold insertByListedAtDesc
    split
    · simp [List.mem_cons]
    · simp only [List.mem_cons, ih]
      tauto

theorem mem_orderByListedAtDesc (v : ListingView) (l : List ListingView) :
    v ∈ orderByListedAtDesc l ↔ v ∈ l := by
  induction l with
  | nil => simp [orderByListedAtDesc]
  | cons a t ih =>
    unfold orderByListedAtDesc at ih ⊢
    rw [List.foldr_cons, mem_insertByListedAtDesc, ih, List.mem_cons]

/-- C10 — confirmed: for any status filter (or none), every row returned by
`getListings` joins a listing to an existing `nfts` row, so a listing whose
`nft_id` has no matching entity row is omitted from the results even though it
sits in the listings table. -/
theorem C10_join_omits_orphans (s : DBState) (l : ListingRow) (status : Option String)
    (_hmem : l ∈ s.listings)
    (hnone : s.nfts.find? (fun n => n.id == l.nft_id) = none) :
    (getListings s status).all (fun v => v.listing.nft_id != l.nft_id) = true := by
  rw [List.all_eq_true]
  intro v hv
  simp only [bne_iff_ne, ne_eq]
  intro hcontra
  unfold getListings at hv
  rw [mem_orderByListedAtDesc] at hv
  have hjoined : v ∈ s.listings.filterMap (fun l2 =>
      (s.nfts.find? (fun n => n.id == l2.nft_id)).map (fun n =>
        ({ listing := l2, name := n.name, description := n.description,
           image_url := n.image_url, creator := n.creator } : ListingView))) := by
    cases status with
    | none => exact hv
    | some st => exact List.mem_of_mem_filter hv
  obtain ⟨l2, hl2, heq⟩ := List.mem_filterMap.mp hjoined
  obtain ⟨n, hn, hview⟩ := Option.map_eq_some'.mp heq
  have hlv : v.listing = l2 := by rw [← hview]
  rw [hlv] at hcontra
  rw [hcontra] at hn
  rw [hn] at hnone
  exact Option.noConfusion hnone

/-- An orphan listing: its entity id has no row in the nfts table. -/
def orphanListing : ListingRow :=
  { nft_id := "Z", seller := "0xS", price := "5", status := "active",
    listed_at := 1, updated_at := 1 }

/-- A store holding only the orphan listing. -/
def orphanDB : DBState := { nfts := [], listings := [orphanListing], transactions := [] }

/-- C10 witness: the orphan listing sits in the listings table, has no matching
entity row, and is omitted from the unfiltered query results. -/
theorem C10_join_omits_orphans_w :
    orphanListing ∈ orphanDB.listings ∧
    orphanDB.nfts.find? (fun n => n.id == orphanListing.nft_id) = none ∧
    (getListings orphanDB none).all (fun v => v.listing.nft_id != orphanListing.nft_id) = true :=
  ⟨by decide, by decide,
    C10_join_omits_orphans orphanDB orphanListing none (by decide) (by decide)⟩
